import Mathlib

/-!
Shallow embedding of the connectionless datagram endpoint in
`pkg/tcpip/transport/internal/network/endpoint.go` (gVisor).

Go machine types are modelled as follows: `tcpip.Address` is a Go string, so
it is a Lean `String`; `tcpip.NICID` and protocol numbers are `Nat`; `uint8`
fields hold a `Nat` and the Go conversion `uint8(v)` of an `int` is
`(v % 256).toNat` (two's-complement truncation to the low 8 bits); fallible
Go functions return `Except` / `Option`.  The external stack collaborator,
the `header` package classification helpers and the route write methods are
opaque to this file's source, so they are parameters gathered in an `Env`
record over which the theorems quantify.  Reference counting on routes is
made observable through an event trace: each operation returns the list of
stack/route calls (find-route, acquire, release, join-group, leave-group)
it performed, in program order.
-/

namespace GvisorDatagram

abbrev Addr := String
abbrev NICID := Nat
abbrev NetProto := Nat
abbrev PacketOwner := Nat

/-- `transport.DatagramEndpointState`: the four legal endpoint states. -/
inductive DatagramEndpointState
  | initial
  | bound
  | connected
  | closed
deriving DecidableEq

/-- The `tcpip.Error` kinds this endpoint can produce or propagate.
`other n` stands for any further error coming back from the stack
collaborator. -/
inductive TcpipError
  | invalidEndpointState
  | closedForSend
  | destinationRequired
  | noRoute
  | badLocalAddress
  | unknownDevice
  | portInUse
  | invalidOptionValue
  | notSupported
  | unknownProtocolOption
  | notConnected
  | broadcastDisabled
  | other (n : Nat)
deriving DecidableEq

/-- `tcpip.FullAddress`. -/
structure FullAddress where
  nic : NICID
  addr : Addr
  port : Nat
deriving DecidableEq

/-- `stack.TransportEndpointID` (the port fields are unused by this file). -/
structure TransportEndpointID where
  localAddress : Addr
  remoteAddress : Addr
deriving DecidableEq

/-- A resolved `stack.Route`.  `rid` identifies the route object so that
acquire/release events can be matched up; the remaining fields are the
route accessors the endpoint reads. -/
structure Route where
  rid : Nat
  localAddress : Addr
  remoteAddress : Addr
  defaultTTL : Nat
  netProto : NetProto
  maxHeaderLength : Nat
  requiresTXChecksum : Bool
  nicID : NICID
  isOutboundBroadcast : Bool
deriving DecidableEq

/-- `stack.TransportEndpointInfo`, restricted to the fields this endpoint
touches. -/
structure TransportEndpointInfo where
  netProto : NetProto
  transProto : Nat
  id : TransportEndpointID
  bindNICID : NICID
  registerNICID : NICID
  bindAddr : Addr
deriving DecidableEq

/-- The externally owned `tcpip.SocketOptions` values the endpoint reads. -/
structure SocketOptions where
  broadcast : Bool
  headerIncluded : Bool
  v6Only : Bool
  multicastLoop : Bool
  bindToDevice : NICID
deriving DecidableEq

/-- `multicastMembership`. -/
structure MulticastMembership where
  nicID : NICID
  multicastAddr : Addr
deriving DecidableEq

/-- A packet buffer produced by the caller-supplied builder; `owner` models
the `pkt.Owner` field written by `Write`. -/
structure PacketBuffer where
  pid : Nat
  owner : Option PacketOwner
deriving DecidableEq

/-- The `Endpoint` struct fields (the stack pointer and mutex are replaced
by the `Env` parameter and by explicit state passing). -/
structure Endpoint where
  ops : SocketOptions
  state : DatagramEndpointState
  writeShutdown : Bool
  info : TransportEndpointInfo
  effectiveNetProto : NetProto
  route : Option Route
  ttl : Nat
  multicastTTL : Nat
  multicastAddr : Addr
  multicastNICID : NICID
  multicastMemberships : List MulticastMembership
  sendTOS : Nat
  owner : Option PacketOwner
deriving DecidableEq

/-- Observable calls into the stack collaborator / route objects. -/
inductive Event
  | findRoute (nic : NICID) (localAddr remoteAddr : Addr)
  | acquireRoute (rid : Nat)
  | releaseRoute (rid : Nat)
  | joinGroup (netProto : NetProto) (nic : NICID) (addr : Addr)
  | leaveGroup (netProto : NetProto) (nic : NICID) (addr : Addr)
deriving DecidableEq

/-- The external collaborators: the stack interface, the `header` package
address classifiers, `tcpip.Address.Unspecified`, the identity's
`AddrNetProtoLocked` resolution and the route write methods.  All are code
of the repository outside the embedded file, so they stay abstract. -/
structure Env where
  isV4MulticastAddress : Addr → Bool
  isV6MulticastAddress : Addr → Bool
  ipv4Broadcast : Addr
  isUnspecified : Addr → Bool
  isSubnetBroadcast : NICID → NetProto → Addr → Bool
  checkLocalAddress : NICID → NetProto → Addr → NICID
  checkNIC : NICID → Bool
  findRoute : NICID → Addr → Addr → NetProto → Bool → Except TcpipError Route
  joinGroup : NetProto → NICID → Addr → Option TcpipError
  leaveGroup : NetProto → NICID → Addr → Option TcpipError
  addrNetProto : TransportEndpointInfo → FullAddress → Bool → Except TcpipError (FullAddress × NetProto)
  writePacket : Route → Nat → Nat → Nat → PacketBuffer → Option TcpipError
  writeHeaderIncludedPacket : Route → PacketBuffer → Option TcpipError

def ipv4ProtocolNumber : NetProto := 0x0800
def ipv6ProtocolNumber : NetProto := 0x86dd

/-- `tcpip.PMTUDiscoveryDont`.  Modelled from the spec: the constant lives in
the `tcpip` package outside the embedded file; the spec only says the
path-MTU-discovery option is fixed at "disabled", so the numeric value is
irrelevant to every claim. -/
def pmtuDiscoveryDont : Int := 1

/-- `Init`: returns `none` where the Go code panics (unsupported network
protocol); otherwise the freshly initialized endpoint value. -/
def initEndpoint (ops : SocketOptions) (netProto : NetProto) (transProto : Nat) :
    Option Endpoint :=
  if netProto ≠ ipv4ProtocolNumber ∧ netProto ≠ ipv6ProtocolNumber then
    none
  else
    some
      { ops := ops
        state := .initial
        writeShutdown := false
        info :=
          { netProto := netProto
            transProto := transProto
            id := { localAddress := "", remoteAddress := "" }
            bindNICID := 0
            registerNICID := 0
            bindAddr := "" }
        effectiveNetProto := netProto
        route := none
        ttl := 0
        multicastTTL := 1
        multicastAddr := ""
        multicastNICID := 0
        multicastMemberships := []
        sendTOS := 0
        owner := none }

/-- `checkV4MappedLocked`. -/
def checkV4MappedLocked (env : Env) (e : Endpoint) (addr : FullAddress) :
    Except TcpipError (FullAddress × NetProto) :=
  env.addrNetProto e.info addr e.ops.v6Only

/-- `isBroadcastOrMulticast`. -/
def isBroadcastOrMulticast (env : Env) (nicID : NICID) (netProto : NetProto)
    (addr : Addr) : Bool :=
  addr == env.ipv4Broadcast || env.isV4MulticastAddress addr ||
    env.isV6MulticastAddress addr || env.isSubnetBroadcast nicID netProto addr

/-- `connectRoute`: resolves the outbound route, applying the local-address
clearing rule for broadcast/multicast sources and the multicast-interface
substitutions, then delegates to `stack.FindRoute`. -/
def connectRoute (env : Env) (e : Endpoint) (nicID : NICID) (addr : FullAddress)
    (netProto : NetProto) : Except TcpipError (Route × NICID) × List Event :=
  let localAddr := e.info.id.localAddress
  let localAddr :=
    if isBroadcastOrMulticast env nicID netProto localAddr then "" else localAddr
  let step2 :=
    if env.isV4MulticastAddress addr.addr || env.isV6MulticastAddress addr.addr then
      let nicID' := if nicID == 0 then e.multicastNICID else nicID
      let localAddr' :=
        if localAddr == "" && nicID' == 0 then e.multicastAddr else localAddr
      (nicID', localAddr')
    else
      (nicID, localAddr)
  let nicID := step2.1
  let localAddr := step2.2
  match env.findRoute nicID localAddr addr.addr netProto e.ops.multicastLoop with
  | .error err => (.error err, [Event.findRoute nicID localAddr addr.addr])
  | .ok r => (.ok (r, nicID), [Event.findRoute nicID localAddr addr.addr])

/-- `ConnectAndThen`.  Returns the endpoint after the call, the trace of
stack/route calls and the error result.  Note that, as in the source, a
route resolved just before a failing hook is not released. -/
def connectAndThen (env : Env) (e : Endpoint) (addr : FullAddress)
    (f : NetProto → TransportEndpointID → TransportEndpointID → Option TcpipError) :
    Endpoint × List Event × Option TcpipError :=
  let addr := { addr with port := 0 }
  let nicCheck : Except TcpipError NICID :=
    match e.state with
    | .initial => .ok addr.nic
    | .bound | .connected =>
      if e.info.bindNICID == 0 then
        .ok addr.nic
      else if addr.nic != 0 && addr.nic != e.info.bindNICID then
        .error TcpipError.invalidEndpointState
      else
        .ok e.info.bindNICID
    | .closed => .error TcpipError.invalidEndpointState
  match nicCheck with
  | .error err => (e, [], some err)
  | .ok nicID =>
    match checkV4MappedLocked env e addr with
    | .error err => (e, [], some err)
    | .ok (addr, netProto) =>
      match connectRoute env e nicID addr netProto with
      | (.error err, evts) => (e, evts, some err)
      | (.ok (r, nicID), evts) =>
        let id : TransportEndpointID :=
          { localAddress :=
              if e.state == .initial then r.localAddress else e.info.id.localAddress
            remoteAddress := r.remoteAddress }
        match f r.netProto e.info.id id with
        | some err => (e, evts, some err)
        | none =>
          let releaseOld :=
            match e.route with
            | some old => [Event.releaseRoute old.rid]
            | none => []
          ({ e with
              route := some r
              info := { e.info with id := id, registerNICID := nicID }
              effectiveNetProto := netProto
              state := .connected },
            evts ++ releaseOld, none)

/-- `Connect`. -/
def connect (env : Env) (e : Endpoint) (addr : FullAddress) :
    Endpoint × List Event × Option TcpipError :=
  connectAndThen env e addr (fun _ _ _ => none)

/-- `Disconnect`.  (The source calls `e.route.Release()` unconditionally in
the Connected branch; a nil route there would be a nil-pointer panic, and
is unreachable under the route/state invariant proved below.) -/
def disconnect (e : Endpoint) : Endpoint × List Event :=
  if e.state ≠ .connected then
    (e, [])
  else
    let e' :=
      if e.info.bindNICID != 0 || e.info.id.localAddress == "" then
        { e with
            info := { e.info with
              id := { localAddress := e.info.id.localAddress, remoteAddress := "" } }
            state := .bound }
      else
        { e with
            info := { e.info with id := { localAddress := "", remoteAddress := "" } }
            state := .initial }
    match e.route with
    | some r => ({ e' with route := none }, [Event.releaseRoute r.rid])
    | none => ({ e' with route := none }, [])

/-- `Close`. -/
def close (e : Endpoint) : Endpoint × List Event :=
  if e.state == .closed then
    (e, [])
  else
    let leaveEvts :=
      e.multicastMemberships.map fun mem =>
        Event.leaveGroup e.info.netProto mem.nicID mem.multicastAddr
    let releaseEvts :=
      match e.route with
      | some r => [Event.releaseRoute r.rid]
      | none => []
    ({ e with
        multicastMemberships := []
        route := none
        state := .closed },
      leaveEvts ++ releaseEvts)

/-- `Shutdown`.  The Go `default:` branch panics; the state type has exactly
the four values below, so the match is total and the panic branch has no
counterpart here. -/
def shutdown (e : Endpoint) : Endpoint × Option TcpipError :=
  match e.state with
  | .initial | .closed => (e, some TcpipError.notConnected)
  | .bound | .connected => ({ e with writeShutdown := true }, none)

/-- `SetOwner`. -/
def setOwner (e : Endpoint) (o : Option PacketOwner) : Endpoint :=
  { e with owner := o }

/-- `BindAndThen`. -/
def bindAndThen (env : Env) (e : Endpoint) (addr : FullAddress)
    (f : NetProto → Addr → Option TcpipError) : Endpoint × Option TcpipError :=
  let addr := { addr with port := 0 }
  if e.state ≠ .initial then
    (e, some TcpipError.invalidEndpointState)
  else
    match checkV4MappedLocked env e addr with
    | .error err => (e, some err)
    | .ok (addr, netProto) =>
      let nicCheck : Except TcpipError NICID :=
        if addr.addr ≠ "" && !isBroadcastOrMulticast env addr.nic netProto addr.addr then
          let nicID := env.checkLocalAddress addr.nic netProto addr.addr
          if nicID == 0 then .error TcpipError.badLocalAddress else .ok nicID
        else
          .ok addr.nic
      match nicCheck with
      | .error err => (e, some err)
      | .ok nicID =>
        match f netProto addr.addr with
        | some err => (e, some err)
        | none =>
          ({ e with
              info := { e.info with
                id := { localAddress := addr.addr, remoteAddress := "" }
                bindNICID := nicID
                registerNICID := nicID
                bindAddr := addr.addr }
              effectiveNetProto := netProto
              state := .bound }, none)

/-- `Bind`. -/
def bind (env : Env) (e : Endpoint) (addr : FullAddress) :
    Endpoint × Option TcpipError :=
  bindAndThen env e addr (fun _ _ => none)

/-- `tcpip.WriteOptions`, restricted to the fields `Write` reads. -/
structure WriteOptions where
  toDest : Option FullAddress
  more : Bool

/-- The locked snapshot closure inside `Write` (lines 146-207 of the
source): computes the `(route, owner, ttl, tos)` tuple, or the error that
aborts the write.  (On the connected path the source calls
`e.route.Acquire()`; a nil route there would be a nil-pointer panic,
unreachable under the route/state invariant proved below — the `none`
branch mirrors the `destinationRequired` failure that guards it.) -/
def writeInner (env : Env) (e : Endpoint) (toOpt : Option FullAddress) :
    Except TcpipError (Route × Option PacketOwner × Nat × Nat) × List Event :=
  if e.state == .closed then
    (.error TcpipError.invalidEndpointState, [])
  else if e.writeShutdown then
    (.error TcpipError.closedForSend, [])
  else
    match toOpt with
    | none =>
      if e.state != .connected then
        (.error TcpipError.destinationRequired, [])
      else
        match e.route with
        | none => (.error TcpipError.destinationRequired, [])
        | some r =>
          let ttl := e.ttl
          let ttl :=
            if env.isV4MulticastAddress r.remoteAddress ||
                env.isV6MulticastAddress r.remoteAddress then
              e.multicastTTL
            else if ttl == 0 then
              r.defaultTTL
            else
              ttl
          (.ok (r, e.owner, ttl, e.sendTOS), [Event.acquireRoute r.rid])
    | some toAddr =>
      let nicID := toAddr.nic
      let nicID := if nicID == 0 then e.ops.bindToDevice else nicID
      let nicCheck : Except TcpipError NICID :=
        if e.info.bindNICID != 0 then
          if nicID != 0 && nicID != e.info.bindNICID then
            .error TcpipError.noRoute
          else
            .ok e.info.bindNICID
        else
          .ok nicID
      match nicCheck with
      | .error err => (.error err, [])
      | .ok nicID =>
        match checkV4MappedLocked env e toAddr with
        | .error err => (.error err, [])
        | .ok (dst, netProto) =>
          match connectRoute env e nicID dst netProto with
          | (.error err, evts) => (.error err, evts)
          | (.ok (route, _), evts) =>
            let ttl := e.ttl
            let ttl :=
              if env.isV4MulticastAddress route.remoteAddress ||
                  env.isV6MulticastAddress route.remoteAddress then
                e.multicastTTL
              else if ttl == 0 then
                route.defaultTTL
              else
                ttl
            (.ok (route, e.owner, ttl, e.sendTOS), evts)

/-- `Write`.  `Write` takes only the read lock and never assigns an
`Endpoint` field, so it returns just its result and trace; the route it
snapshotted or resolved is released on every path after the snapshot
succeeds. -/
def write (env : Env) (e : Endpoint)
    (pktf : NetProto → Addr → Addr → Nat → Bool → Except TcpipError PacketBuffer)
    (opts : WriteOptions) : (Int × Option TcpipError) × List Event :=
  if opts.more then
    ((0, some TcpipError.invalidOptionValue), [])
  else
    match writeInner env e opts.toDest with
    | (.error err, evts) => ((0, some err), evts)
    | (.ok (route, owner, ttl, tos), evts) =>
      if !e.ops.broadcast && route.isOutboundBroadcast then
        ((0, some TcpipError.broadcastDisabled), evts ++ [Event.releaseRoute route.rid])
      else
        match pktf route.netProto route.localAddress route.remoteAddress
            route.maxHeaderLength route.requiresTXChecksum with
        | .error err => ((0, some err), evts ++ [Event.releaseRoute route.rid])
        | .ok pkt =>
          if e.ops.headerIncluded then
            ((0, env.writeHeaderIncludedPacket route pkt),
              evts ++ [Event.releaseRoute route.rid])
          else
            ((0, env.writePacket route e.info.transProto ttl tos
                { pkt with owner := owner }),
              evts ++ [Event.releaseRoute route.rid])

/-- `tcpip.SockOptInt` values: the five the endpoint handles, plus
`otherOpt n` for every other value of the Go enum. -/
inductive SockOptInt
  | mtuDiscover
  | multicastTTLOpt
  | ttlOpt
  | ipv4TOS
  | ipv6TrafficClass
  | otherOpt (n : Nat)
deriving DecidableEq

/-- `SetSockOptInt`.  The Go switch has no `default:` case, so an
unrecognized option falls through and the function returns nil. -/
def setSockOptInt (e : Endpoint) (opt : SockOptInt) (v : Int) :
    Endpoint × Option TcpipError :=
  match opt with
  | .mtuDiscover =>
    if v ≠ pmtuDiscoveryDont then (e, some TcpipError.notSupported) else (e, none)
  | .multicastTTLOpt => ({ e with multicastTTL := (v % 256).toNat }, none)
  | .ttlOpt => ({ e with ttl := (v % 256).toNat }, none)
  | .ipv4TOS => ({ e with sendTOS := (v % 256).toNat }, none)
  | .ipv6TrafficClass => ({ e with sendTOS := (v % 256).toNat }, none)
  | .otherOpt _ => (e, none)

/-- `GetSockOptInt`. -/
def getSockOptInt (e : Endpoint) (opt : SockOptInt) : Int × Option TcpipError :=
  match opt with
  | .mtuDiscover => (pmtuDiscoveryDont, none)
  | .multicastTTLOpt => ((e.multicastTTL : Int), none)
  | .ttlOpt => ((e.ttl : Int), none)
  | .ipv4TOS => ((e.sendTOS : Int), none)
  | .ipv6TrafficClass => ((e.sendTOS : Int), none)
  | .otherOpt _ => (-1, some TcpipError.unknownProtocolOption)

/-- `tcpip.SettableSocketOption` values: the four the endpoint handles,
plus `otherSettable n` for every other option type. -/
inductive SettableSocketOption
  | multicastInterface (nic : NICID) (interfaceAddr : Addr)
  | addMembership (nic : NICID) (interfaceAddr : Addr) (multicastAddr : Addr)
  | removeMembership (nic : NICID) (interfaceAddr : Addr) (multicastAddr : Addr)
  | socketDetachFilter
  | otherSettable (n : Nat)
deriving DecidableEq

/-- The NIC-resolution block shared verbatim by the `AddMembershipOption`
and `RemoveMembershipOption` cases of `SetSockOpt` (the Go source inlines
the identical code in both branches): resolve the NIC, using a throwaway
route lookup (immediately released) when the interface address is
unspecified and no NIC was given. -/
def membershipNICID (env : Env) (e : Endpoint) (nicID : NICID)
    (interfaceAddr multicastAddr : Addr) : NICID × List Event :=
  if env.isUnspecified interfaceAddr then
    if nicID == 0 then
      match env.findRoute 0 "" multicastAddr e.info.netProto false with
      | .ok r => (r.nicID, [Event.findRoute 0 "" multicastAddr, Event.releaseRoute r.rid])
      | .error _ => (0, [Event.findRoute 0 "" multicastAddr])
    else
      (nicID, [])
  else
    (env.checkLocalAddress nicID e.info.netProto interfaceAddr, [])

/-- `SetSockOpt`.  As in the source the type switch has no `default:`
case, so an unrecognized option type returns nil. -/
def setSockOpt (env : Env) (e : Endpoint) (opt : SettableSocketOption) :
    Endpoint × List Event × Option TcpipError :=
  match opt with
  | .multicastInterface nic interfaceAddr =>
    match checkV4MappedLocked env e { nic := 0, addr := interfaceAddr, port := 0 } with
    | .error err => (e, [], some err)
    | .ok (fa, netProto) =>
      let addr := fa.addr
      if nic == 0 && addr == "" then
        ({ e with multicastAddr := "", multicastNICID := 0 }, [], none)
      else
        let nicCheck : Except TcpipError NICID :=
          if nic != 0 then
            if !env.checkNIC nic then .error TcpipError.badLocalAddress else .ok nic
          else
            let nic := env.checkLocalAddress 0 netProto addr
            if nic == 0 then .error TcpipError.badLocalAddress else .ok nic
        match nicCheck with
        | .error err => (e, [], some err)
        | .ok nic =>
          if e.info.bindNICID != 0 && e.info.bindNICID != nic then
            (e, [], some TcpipError.invalidEndpointState)
          else
            ({ e with multicastNICID := nic, multicastAddr := addr }, [], none)
  | .addMembership nic interfaceAddr multicastAddr =>
    if !env.isV4MulticastAddress multicastAddr &&
        !env.isV6MulticastAddress multicastAddr then
      (e, [], some TcpipError.invalidOptionValue)
    else
      let res := membershipNICID env e nic interfaceAddr multicastAddr
      let nicID := res.1
      let evts := res.2
      if nicID == 0 then
        (e, evts, some TcpipError.unknownDevice)
      else
        let memToInsert : MulticastMembership :=
          { nicID := nicID, multicastAddr := multicastAddr }
        if e.multicastMemberships.contains memToInsert then
          (e, evts, some TcpipError.portInUse)
        else
          match env.joinGroup e.info.netProto nicID multicastAddr with
          | some err =>
            (e, evts ++ [Event.joinGroup e.info.netProto nicID multicastAddr], some err)
          | none =>
            ({ e with multicastMemberships := memToInsert :: e.multicastMemberships },
              evts ++ [Event.joinGroup e.info.netProto nicID multicastAddr], none)
  | .removeMembership nic interfaceAddr multicastAddr =>
    if !env.isV4MulticastAddress multicastAddr &&
        !env.isV6MulticastAddress multicastAddr then
      (e, [], some TcpipError.invalidOptionValue)
    else
      let res := membershipNICID env e nic interfaceAddr multicastAddr
      let nicID := res.1
      let evts := res.2
      if nicID == 0 then
        (e, evts, some TcpipError.unknownDevice)
      else
        let memToRemove : MulticastMembership :=
          { nicID := nicID, multicastAddr := multicastAddr }
        if !e.multicastMemberships.contains memToRemove then
          (e, evts, some TcpipError.badLocalAddress)
        else
          match env.leaveGroup e.info.netProto nicID multicastAddr with
          | some err =>
            (e, evts ++ [Event.leaveGroup e.info.netProto nicID multicastAddr], some err)
          | none =>
            ({ e with multicastMemberships := e.multicastMemberships.erase memToRemove },
              evts ++ [Event.leaveGroup e.info.netProto nicID multicastAddr], none)
  | .socketDetachFilter => (e, [], none)
  | .otherSettable _ => (e, [], none)

/-- `tcpip.GettableSocketOption` values: the one the endpoint handles, plus
`otherGettable n` for every other option type. -/
inductive GettableSocketOption
  | multicastInterfaceGet
  | otherGettable (n : Nat)
deriving DecidableEq

/-- `GetSockOpt`: returns the value written through the caller's option
pointer (when recognized) and the error result. -/
def getSockOpt (e : Endpoint) (opt : GettableSocketOption) :
    Option (NICID × Addr) × Option TcpipError :=
  match opt with
  | .multicastInterfaceGet => (some (e.multicastNICID, e.multicastAddr), none)
  | .otherGettable _ => (none, some TcpipError.unknownProtocolOption)

/-- One public operation of the endpoint, for reasoning about operation
sequences. -/
inductive Op
  | bindOp (addr : FullAddress) (f : NetProto → Addr → Option TcpipError)
  | connectOp (addr : FullAddress)
      (f : NetProto → TransportEndpointID → TransportEndpointID → Option TcpipError)
  | disconnectOp
  | shutdownOp
  | closeOp
  | writeOp (pktf : NetProto → Addr → Addr → Nat → Bool → Except TcpipError PacketBuffer)
      (opts : WriteOptions)
  | setSockOptIntOp (opt : SockOptInt) (v : Int)
  | getSockOptIntOp (opt : SockOptInt)
  | setSockOptOp (opt : SettableSocketOption)
  | getSockOptOp (opt : GettableSocketOption)
  | setOwnerOp (o : Option PacketOwner)

/-- The endpoint after one public operation.  `Write` and the two getters
never assign an `Endpoint` field (they hold only the read lock), so they
leave the endpoint unchanged. -/
def step (env : Env) (e : Endpoint) : Op → Endpoint
  | .bindOp addr f => (bindAndThen env e addr f).1
  | .connectOp addr f => (connectAndThen env e addr f).1
  | .disconnectOp => (disconnect e).1
  | .shutdownOp => (shutdown e).1
  | .closeOp => (close e).1
  | .writeOp _ _ => e
  | .setSockOptIntOp opt v => (setSockOptInt e opt v).1
  | .getSockOptIntOp _ => e
  | .setSockOptOp opt => (setSockOpt env e opt).1
  | .getSockOptOp _ => e
  | .setOwnerOp o => setOwner e o

/-- The endpoint after a sequence of public operations. -/
def runOps (env : Env) (e : Endpoint) : List Op → Endpoint
  | [] => e
  | op :: rest => runOps env (step env e op) rest

/-- The route/state invariant of the data model: the route field is
non-nil exactly in the Connected state. -/
def routeConnectedInv (e : Endpoint) : Prop :=
  e.route ≠ none ↔ e.state = .connected

instance (e : Endpoint) : Decidable (routeConnectedInv e) := by
  unfold routeConnectedInv
  infer_instance

/-- The TTL-selection rule as the spec words it: the multicast TTL if the
resolved remote address is an IPv4 or IPv6 multicast address, otherwise
the configured TTL when it is nonzero, otherwise the route's
protocol-default TTL.  Stated separately from `writeInner` so that the
code's two write paths can be compared against it. -/
def specTTLRule (env : Env) (e : Endpoint) (r : Route) : Nat :=
  if env.isV4MulticastAddress r.remoteAddress ||
      env.isV6MulticastAddress r.remoteAddress then
    e.multicastTTL
  else if e.ttl ≠ 0 then
    e.ttl
  else
    r.defaultTTL

/-! ### Concrete fixtures

A small concrete stack environment and endpoint used by the closed
(witness / counterexample) theorems.  In `cenv`, `"m4"`/`"m6"` are the only
multicast addresses, `"lA"` is the only locally owned address (on NIC 3),
and `findRoute` always succeeds, handing out a route whose id records the
NIC it was resolved through. -/

def copts : SocketOptions :=
  { broadcast := false
    headerIncluded := false
    v6Only := false
    multicastLoop := true
    bindToDevice := 0 }

def cenv : Env :=
  { isV4MulticastAddress := fun a => a == "m4"
    isV6MulticastAddress := fun a => a == "m6"
    ipv4Broadcast := "bcast"
    isUnspecified := fun a => a == ""
    isSubnetBroadcast := fun _ _ _ => false
    checkLocalAddress := fun n _ a => if a == "lA" then (if n == 0 then 3 else n) else 0
    checkNIC := fun _ => true
    findRoute := fun nic la ra np _ =>
      .ok
        { rid := 100 + nic
          localAddress := if la == "" then "lA" else la
          remoteAddress := ra
          defaultTTL := 64
          netProto := np
          maxHeaderLength := 10
          requiresTXChecksum := true
          nicID := if nic == 0 then 3 else nic
          isOutboundBroadcast := false }
    joinGroup := fun _ _ _ => none
    leaveGroup := fun _ _ _ => none
    addrNetProto := fun _ fa _ => .ok (fa, ipv4ProtocolNumber)
    writePacket := fun _ _ _ _ _ => none
    writeHeaderIncludedPacket := fun _ _ => none }

/-- The endpoint value produced by `Init(copts, IPv4, UDP)`. -/
def cInit : Endpoint :=
  { ops := copts
    state := .initial
    writeShutdown := false
    info :=
      { netProto := ipv4ProtocolNumber
        transProto := 17
        id := { localAddress := "", remoteAddress := "" }
        bindNICID := 0
        registerNICID := 0
        bindAddr := "" }
    effectiveNetProto := ipv4ProtocolNumber
    route := none
    ttl := 0
    multicastTTL := 1
    multicastAddr := ""
    multicastNICID := 0
    multicastMemberships := []
    sendTOS := 0
    owner := none }

/-- A unicast destination on NIC 5. -/
def caddr : FullAddress := { nic := 5, addr := "rA", port := 80 }

/-- The endpoint after a successful `Connect(caddr)` straight from the
initial state: Connected, no NIC pinning, local address taken from the
resolved route. -/
def cConnected : Endpoint := (connect cenv cInit caddr).1

/-! ### Invariant preservation lemmas (shared helpers) -/

theorem routeConnectedInv_bindAndThen (env : Env) (e : Endpoint) (addr : FullAddress)
    (f : NetProto → Addr → Option TcpipError) (h : routeConnectedInv e) :
    routeConnectedInv (bindAndThen env e addr f).1 := by
  unfold routeConnectedInv at h ⊢
  unfold bindAndThen
  dsimp only
  repeat' split
  all_goals first
    | exact h
    | simp_all

theorem routeConnectedInv_connectAndThen (env : Env) (e : Endpoint) (addr : FullAddress)
    (f : NetProto → TransportEndpointID → TransportEndpointID → Option TcpipError)
    (h : routeConnectedInv e) :
    routeConnectedInv (connectAndThen env e addr f).1 := by
  unfold routeConnectedInv at h ⊢
  unfold connectAndThen
  dsimp only
  repeat' split
  all_goals first
    | exact h
    | simp_all

theorem routeConnectedInv_disconnect (e : Endpoint) (h : routeConnectedInv e) :
    routeConnectedInv (disconnect e).1 := by
  unfold routeConnectedInv at h ⊢
  unfold disconnect
  dsimp only
  repeat' split
  all_goals first
    | exact h
    | simp_all

theorem routeConnectedInv_close (e : Endpoint) (h : routeConnectedInv e) :
    routeConnectedInv (close e).1 := by
  unfold routeConnectedInv at h ⊢
  unfold close
  dsimp only
  repeat' split
  all_goals first
    | exact h
    | simp_all

theorem routeConnectedInv_shutdown (e : Endpoint) (h : routeConnectedInv e) :
    routeConnectedInv (shutdown e).1 := by
  unfold routeConnectedInv at h ⊢
  unfold shutdown
  repeat' split
  all_goals simp_all

theorem routeConnectedInv_setSockOptInt (e : Endpoint) (opt : SockOptInt) (v : Int)
    (h : routeConnectedInv e) : routeConnectedInv (setSockOptInt e opt v).1 := by
  unfold routeConnectedInv at h ⊢
  unfold setSockOptInt
  repeat' split
  all_goals exact h

theorem routeConnectedInv_setSockOpt (env : Env) (e : Endpoint)
    (opt : SettableSocketOption) (h : routeConnectedInv e) :
    routeConnectedInv (setSockOpt env e opt).1 := by
  unfold routeConnectedInv at h ⊢
  unfold setSockOpt
  dsimp only
  repeat' split
  all_goals exact h

theorem routeConnectedInv_step (env : Env) (e : Endpoint) (op : Op)
    (h : routeConnectedInv e) : routeConnectedInv (step env e op) := by
  cases op with
  | bindOp addr f => exact routeConnectedInv_bindAndThen env e addr f h
  | connectOp addr f => exact routeConnectedInv_connectAndThen env e addr f h
  | disconnectOp => exact routeConnectedInv_disconnect e h
  | shutdownOp => exact routeConnectedInv_shutdown e h
  | closeOp => exact routeConnectedInv_close e h
  | writeOp pktf opts => exact h
  | setSockOptIntOp opt v => exact routeConnectedInv_setSockOptInt e opt v h
  | getSockOptIntOp opt => exact h
  | setSockOptOp opt => exact routeConnectedInv_setSockOpt env e opt h
  | getSockOptOp opt => exact h
  | setOwnerOp o => exact h

theorem routeConnectedInv_runOps (env : Env) (e : Endpoint) (l : List Op)
    (h : routeConnectedInv e) : routeConnectedInv (runOps env e l) := by
  induction l generalizing e with
  | nil => exact h
  | cons op rest ih => exact ih (step env e op) (routeConnectedInv_step env e op h)

theorem routeConnectedInv_init (ops : SocketOptions) (netProto : NetProto)
    (transProto : Nat) (e : Endpoint)
    (h : initEndpoint ops netProto transProto = some e) : routeConnectedInv e := by
  unfold initEndpoint at h
  split at h
  · exact absurd h (by simp)
  · cases h
    unfold routeConnectedInv
    simp

theorem memberships_bindAndThen (env : Env) (e : Endpoint) (addr : FullAddress)
    (f : NetProto → Addr → Option TcpipError) :
    (bindAndThen env e addr f).1.multicastMemberships = e.multicastMemberships := by
  unfold bindAndThen
  dsimp only
  repeat' split
  all_goals rfl

theorem memberships_connectAndThen (env : Env) (e : Endpoint) (addr : FullAddress)
    (f : NetProto → TransportEndpointID → TransportEndpointID → Option TcpipError) :
    (connectAndThen env e addr f).1.multicastMemberships = e.multicastMemberships := by
  unfold connectAndThen
  dsimp only
  repeat' split
  all_goals rfl

theorem memberships_disconnect (e : Endpoint) :
    (disconnect e).1.multicastMemberships = e.multicastMemberships := by
  unfold disconnect
  dsimp only
  repeat' split
  all_goals rfl

theorem memberships_shutdown (e : Endpoint) :
    (shutdown e).1.multicastMemberships = e.multicastMemberships := by
  unfold shutdown
  repeat' split
  all_goals rfl

theorem memberships_setSockOptInt (e : Endpoint) (opt : SockOptInt) (v : Int) :
    (setSockOptInt e opt v).1.multicastMemberships = e.multicastMemberships := by
  unfold setSockOptInt
  repeat' split
  all_goals rfl

theorem nodup_setSockOpt (env : Env) (e : Endpoint) (opt : SettableSocketOption)
    (h : e.multicastMemberships.Nodup) :
    (setSockOpt env e opt).1.multicastMemberships.Nodup := by
  unfold setSockOpt
  dsimp only
  repeat' split
  all_goals first
    | exact h
    | exact h.erase _
    | simp_all [List.nodup_cons]

theorem nodup_step (env : Env) (e : Endpoint) (op : Op)
    (h : e.multicastMemberships.Nodup) :
    (step env e op).multicastMemberships.Nodup := by
  cases op with
  | bindOp addr f => rw [step, memberships_bindAndThen]; exact h
  | connectOp addr f => rw [step, memberships_connectAndThen]; exact h
  | disconnectOp => rw [step, memberships_disconnect]; exact h
  | shutdownOp => rw [step, memberships_shutdown]; exact h
  | closeOp =>
    rw [step]
    unfold close
    split
    · exact h
    · simp
  | writeOp pktf opts => exact h
  | setSockOptIntOp opt v => rw [step, memberships_setSockOptInt]; exact h
  | getSockOptIntOp opt => exact h
  | setSockOptOp opt => exact nodup_setSockOpt env e opt h
  | getSockOptOp opt => exact h
  | setOwnerOp o => exact h

theorem nodup_runOps (env : Env) (e : Endpoint) (l : List Op)
    (h : e.multicastMemberships.Nodup) :
    (runOps env e l).multicastMemberships.Nodup := by
  induction l generalizing e with
  | nil => exact h
  | cons op rest ih => exact ih (step env e op) (nodup_step env e op h)

/-- The route `cenv.findRoute` hands out for `Connect(caddr)` (NIC 5,
ephemeral local address). -/
def cRoute : Route :=
  { rid := 105
    localAddress := "lA"
    remoteAddress := "rA"
    defaultTTL := 64
    netProto := ipv4ProtocolNumber
    maxHeaderLength := 10
    requiresTXChecksum := true
    nicID := 5
    isOutboundBroadcast := false }

/-- A hook that always succeeds. -/
def cHookOk : NetProto → TransportEndpointID → TransportEndpointID → Option TcpipError :=
  fun _ _ _ => none

/-- A hook that always fails. -/
def cHookFail : NetProto → TransportEndpointID → TransportEndpointID → Option TcpipError :=
  fun _ _ _ => some (TcpipError.other 1)

theorem memberships_init (ops : SocketOptions) (netProto : NetProto)
    (transProto : Nat) (e : Endpoint)
    (h : initEndpoint ops netProto transProto = some e) :
    e.multicastMemberships = [] := by
  unfold initEndpoint at h
  split at h
  · exact absurd h (by simp)
  · cases h
    rfl

/-! ### Claims -/

/-- C1: For every sequence of public operations (Init, Bind/BindAndThen,
Connect/ConnectAndThen, Disconnect, Shutdown, Write, Close, socket-option
get/set) starting from a freshly initialized endpoint, after each operation
the endpoint's route field is non-nil if and only if its state equals
Connected. -/
theorem claim_C1_route_nonnil_iff_connected (env : Env) (ops : SocketOptions)
    (netProto : NetProto) (transProto : Nat) (e0 : Endpoint)
    (h : initEndpoint ops netProto transProto = some e0) (l : List Op) :
    (runOps env e0 l).route ≠ none ↔ (runOps env e0 l).state = .connected :=
  routeConnectedInv_runOps env e0 l
    (routeConnectedInv_init ops netProto transProto e0 h)

theorem claim_C1_witness :
    initEndpoint copts ipv4ProtocolNumber 17 = some cInit ∧
    ((runOps cenv cInit [Op.connectOp caddr cHookOk]).route ≠ none ↔
      (runOps cenv cInit [Op.connectOp caddr cHookOk]).state = .connected) :=
  ⟨by decide, claim_C1_route_nonnil_iff_connected cenv copts ipv4ProtocolNumber 17
    cInit (by decide) [Op.connectOp caddr cHookOk]⟩

/-- C9: Shutdown from Initial or Closed returns the not-connected error and
changes nothing; from Bound or Connected it sets the write-shutdown flag and
returns success; and since the state type has exactly those four values the
result is always one of these two outcomes, so the fatal default branch of
the Go switch is unreachable. -/
theorem claim_C9_shutdown_states (e : Endpoint) :
    ((e.state = .initial ∨ e.state = .closed) →
      shutdown e = (e, some TcpipError.notConnected)) ∧
    ((e.state = .bound ∨ e.state = .connected) →
      shutdown e = ({ e with writeShutdown := true }, none)) ∧
    (shutdown e = (e, some TcpipError.notConnected) ∨
      shutdown e = ({ e with writeShutdown := true }, none)) := by
  refine ⟨?_, ?_, ?_⟩ <;>
    cases h : e.state <;>
    simp [shutdown, h]

theorem claim_C9_witness :
    shutdown cInit = (cInit, some TcpipError.notConnected) :=
  (claim_C9_shutdown_states cInit).1 (Or.inl rfl)

/-- C10: For every int v, SetSockOptInt with TTLOption, MulticastTTLOption,
IPv4TOSOption or IPv6TrafficClassOption succeeds and stores v truncated to
8 bits, so GetSockOptInt of the same option returns v mod 2^8 (equal to v
exactly when 0 ≤ v ≤ 255); out-of-range values are silently truncated, and
the two ToS/traffic-class options read and write the same backing field. -/
theorem claim_C10_sockoptint_truncation (e : Endpoint) (v : Int) (opt : SockOptInt)
    (hopt : opt = .ttlOpt ∨ opt = .multicastTTLOpt ∨ opt = .ipv4TOS ∨
      opt = .ipv6TrafficClass) :
    (setSockOptInt e opt v).2 = none ∧
    (getSockOptInt (setSockOptInt e opt v).1 opt).1 = v % 256 ∧
    (0 ≤ v → v ≤ 255 → (getSockOptInt (setSockOptInt e opt v).1 opt).1 = v) ∧
    (getSockOptInt (setSockOptInt e .ipv4TOS v).1 .ipv6TrafficClass).1 = v % 256 ∧
    (getSockOptInt (setSockOptInt e .ipv6TrafficClass v).1 .ipv4TOS).1 = v % 256 := by
  have hmod : (((v % 256).toNat : Nat) : Int) = v % 256 :=
    Int.toNat_of_nonneg (Int.emod_nonneg v (by norm_num))
  have hrange : 0 ≤ v → v ≤ 255 → v % 256 = v := fun h1 h2 =>
    Int.emod_eq_of_lt h1 (by omega)
  rcases hopt with h | h | h | h <;> subst h <;>
    exact ⟨rfl, hmod, fun h1 h2 => by
      show (((v % 256).toNat : Nat) : Int) = v
      rw [hmod, hrange h1 h2], hmod, hmod⟩

theorem claim_C10_witness :
    (setSockOptInt cInit SockOptInt.ttlOpt 300).2 = none ∧
    (getSockOptInt (setSockOptInt cInit SockOptInt.ttlOpt 300).1 SockOptInt.ttlOpt).1 =
      300 % 256 ∧
    (getSockOptInt (setSockOptInt cInit SockOptInt.ttlOpt 42).1 SockOptInt.ttlOpt).1 = 42 := by
  have h300 := claim_C10_sockoptint_truncation cInit 300 .ttlOpt (Or.inl rfl)
  have h42 := claim_C10_sockoptint_truncation cInit 42 .ttlOpt (Or.inl rfl)
  exact ⟨h300.1, h300.2.1, h42.2.2.1 (by norm_num) (by norm_num)⟩

/-- C6 counterexample: the claim says each of the four accessors rejects
unrecognized options with unknown-protocol-option, but `SetSockOptInt` (and
`SetSockOpt`) return nil for an unrecognized option: at `otherOpt 0` the
setter succeeds instead of failing. -/
theorem claim_C6_counterexample :
    (setSockOptInt cInit (SockOptInt.otherOpt 0) 5).2 = none ∧
    (setSockOptInt cInit (SockOptInt.otherOpt 0) 5).2 ≠
      some TcpipError.unknownProtocolOption ∧
    (setSockOpt cenv cInit (SettableSocketOption.otherSettable 0)).2.2 = none ∧
    (setSockOpt cenv cInit (SettableSocketOption.otherSettable 0)).2.2 ≠
      some TcpipError.unknownProtocolOption :=
  ⟨rfl, by decide, rfl, by decide⟩

/-- C6 (amended): the two getters reject an option they do not recognize
with unknown-protocol-option, while SetSockOptInt and SetSockOpt silently
succeed (return nil, changing nothing) on an unrecognized option. -/
theorem claim_C6_amended_unknown_options (env : Env) (e : Endpoint) (n : Nat)
    (v : Int) :
    getSockOptInt e (.otherOpt n) = (-1, some TcpipError.unknownProtocolOption) ∧
    getSockOpt e (.otherGettable n) = (none, some TcpipError.unknownProtocolOption) ∧
    setSockOptInt e (.otherOpt n) v = (e, none) ∧
    setSockOpt env e (.otherSettable n) = (e, [], none) :=
  ⟨rfl, rfl, rfl, rfl⟩

/-- C3 counterexample: the claim says a Connected endpoint with a non-empty
local address disconnects to Bound, but `cConnected` — reached by a real
`Connect` from Initial, so Connected with local address "lA" (non-empty,
taken from the route) and no NIC pinning — disconnects to Initial. -/
theorem claim_C3_counterexample :
    cConnected.state = .connected ∧
    cConnected.info.bindNICID = 0 ∧
    cConnected.info.id.localAddress ≠ "" ∧
    (disconnect cConnected).1.state = .initial ∧
    (disconnect cConnected).1.state ≠ .bound := by
  refine ⟨by decide, by decide, by decide, by decide, by decide⟩

/-- C3 (amended): Disconnect is a no-op unless the state is Connected.
From Connected: if the endpoint has an explicit NIC pinning or an EMPTY
local address, the identity is reduced to just the local address and the
state becomes Bound; otherwise (no pinning and a non-empty, route-derived
local address) the identity is cleared entirely and the state becomes
Initial; in both cases the held route is released and set to nil. -/
theorem claim_C3_amended_disconnect (e : Endpoint) :
    (e.state ≠ .connected → disconnect e = (e, [])) ∧
    (e.state = .connected →
      (disconnect e).1.route = none ∧
      (∀ r, e.route = some r → (disconnect e).2 = [Event.releaseRoute r.rid]) ∧
      ((e.info.bindNICID ≠ 0 ∨ e.info.id.localAddress = "") →
        (disconnect e).1.state = .bound ∧
        (disconnect e).1.info.id =
          { localAddress := e.info.id.localAddress, remoteAddress := "" }) ∧
      ((e.info.bindNICID = 0 ∧ e.info.id.localAddress ≠ "") →
        (disconnect e).1.state = .initial ∧
        (disconnect e).1.info.id = { localAddress := "", remoteAddress := "" })) := by
  constructor
  · intro h
    unfold disconnect
    rw [if_pos h]
  · intro h
    have hne : ¬(e.state ≠ .connected) := by simp [h]
    refine ⟨?_, ?_, ?_, ?_⟩
    · unfold disconnect
      rw [if_neg hne]
      dsimp only
      repeat' split
      all_goals rfl
    · intro r hr
      unfold disconnect
      rw [if_neg hne, hr]
    · intro hcond
      have hb : (e.info.bindNICID != 0 || e.info.id.localAddress == "") = true := by
        rcases hcond with h1 | h1 <;> simp [h1]
      unfold disconnect
      rw [if_neg hne]
      dsimp only
      rw [if_pos hb]
      cases hr : e.route <;> exact ⟨rfl, rfl⟩
    · rintro ⟨h1, h2⟩
      have hb : ¬((e.info.bindNICID != 0 || e.info.id.localAddress == "") = true) := by
        simp [h1, h2]
      unfold disconnect
      rw [if_neg hne]
      dsimp only
      rw [if_neg hb]
      cases hr : e.route <;> exact ⟨rfl, rfl⟩

theorem claim_C3_witness :
    (disconnect cConnected).1.route = none ∧
    (disconnect cConnected).1.state = .initial := by
  have h := (claim_C3_amended_disconnect cConnected).2 (by decide)
  exact ⟨h.1, (h.2.2.2 (by decide)).1⟩

/-- C5: For every Write that reaches packet transmission (the locked
snapshot succeeds), the TTL used is: the endpoint's multicast TTL if the
resolved remote address is an IPv4 or IPv6 multicast address; otherwise the
configured TTL when it is nonzero; otherwise the route's protocol-default
TTL — identically on the connected-route path (`toOpt = none`) and the
explicit-destination path (`toOpt = some _`). -/
theorem claim_C5_write_ttl (env : Env) (e : Endpoint) (toOpt : Option FullAddress)
    (r : Route) (o : Option PacketOwner) (ttl tos : Nat) (evts : List Event)
    (h : writeInner env e toOpt = (.ok (r, o, ttl, tos), evts)) :
    ttl = specTTLRule env e r := by
  unfold writeInner at h
  dsimp only at h
  repeat' split at h
  all_goals try simp_all [specTTLRule]
  all_goals
    obtain ⟨⟨hr1, ho, httl, htos⟩, hevts⟩ := h
  all_goals subst hr1
  all_goals omega

theorem claim_C5_witness :
    writeInner cenv cConnected none =
      (.ok (cRoute, none, 64, 0), [Event.acquireRoute 105]) ∧
    64 = specTTLRule cenv cConnected cRoute :=
  ⟨rfl,
    claim_C5_write_ttl cenv cConnected none cRoute none 64 0
      [Event.acquireRoute 105] rfl⟩

/-- C8: Close is idempotent: the first Close on a non-Closed endpoint
leaves every joined multicast group, clears the membership set, releases
the held route (if any) exactly once, and sets the state to Closed; every
subsequent Close is a no-op producing the same endpoint with no further
stack/route calls. -/
theorem claim_C8_close_idempotent (e : Endpoint) :
    (e.state ≠ .closed →
      (close e).1.state = .closed ∧
      (close e).1.multicastMemberships = [] ∧
      (close e).1.route = none ∧
      (close e).2 =
        (e.multicastMemberships.map fun mem =>
          Event.leaveGroup e.info.netProto mem.nicID mem.multicastAddr) ++
          (match e.route with
           | some r => [Event.releaseRoute r.rid]
           | none => []) ∧
      (∀ r, e.route = some r →
        (close e).2.count (Event.releaseRoute r.rid) = 1)) ∧
    close (close e).1 = ((close e).1, []) := by
  have hbe : ¬(e.state = .closed) → ((e.state == .closed) = false) := by
    intro h; simpa using h
  constructor
  · intro h
    have hb := hbe h
    refine ⟨?_, ?_, ?_, ?_, ?_⟩
    · unfold close; rw [hb]; rfl
    · unfold close; rw [hb]; rfl
    · unfold close; rw [hb]; rfl
    · unfold close; rw [hb]; rfl
    · intro r hr
      have h2 : (close e).2 =
          (e.multicastMemberships.map fun mem =>
            Event.leaveGroup e.info.netProto mem.nicID mem.multicastAddr) ++
            [Event.releaseRoute r.rid] := by
        unfold close
        rw [hb, hr]
        rfl
      rw [h2, List.count_append]
      have hzero :
          ((e.multicastMemberships.map fun mem =>
            Event.leaveGroup e.info.netProto mem.nicID mem.multicastAddr).count
              (Event.releaseRoute r.rid)) = 0 := by
        rw [List.count_eq_zero]
        simp
      rw [hzero]
      simp
  · have hclosed : ∀ e' : Endpoint, e'.state = .closed → close e' = (e', []) := by
      intro e' h'
      unfold close
      rw [if_pos (show (e'.state == DatagramEndpointState.closed) = true by simpa using h')]
    by_cases h : e.state = .closed
    · have hc := hclosed e h
      rw [hc]
      exact hclosed e h
    · have hb := hbe h
      have h1 : (close e).1.state = .closed := by unfold close; rw [hb]; rfl
      exact hclosed _ h1

theorem claim_C8_witness :
    (close cConnected).1.state = .closed ∧
    (close cConnected).2.count (Event.releaseRoute 105) = 1 ∧
    close (close cConnected).1 = ((close cConnected).1, []) := by
  have h := claim_C8_close_idempotent cConnected
  have h1 := h.1 (by decide)
  exact ⟨h1.1, h1.2.2.2.2 cRoute (by decide), h.2⟩

/-- C2 (code bug): at a concrete failing input — a fresh endpoint, a stack
whose FindRoute succeeds (yielding the route with id 105), and a hook that
fails — ConnectAndThen returns the hook's error and changes no endpoint
field, but the newly resolved route is NOT released: no release event for
route 105 appears in the trace, so the route reference leaks.  The claim
(and spec §4.1) says the newly resolved route is released on hook
failure. -/
theorem claim_C2_hook_failure_leaks_route :
    (connectRoute cenv cInit 5 { nic := 5, addr := "rA", port := 0 }
      ipv4ProtocolNumber).1 = .ok (cRoute, 5) ∧
    connectAndThen cenv cInit caddr cHookFail =
      (cInit, [Event.findRoute 5 "" "rA"], some (TcpipError.other 1)) ∧
    Event.releaseRoute cRoute.rid ∉
      (connectAndThen cenv cInit caddr cHookFail).2.1 :=
  ⟨rfl, rfl, by decide⟩

/-- The single FindRoute call `connectRoute` makes carries the caller's
NIC whenever that NIC is nonzero (the multicast substitution only replaces
a zero NIC). -/
theorem connectRoute_findRoute_event (env : Env) (e : Endpoint) (nicID : NICID)
    (addr : FullAddress) (netProto : NetProto) (h : nicID ≠ 0) :
    ∃ la, (connectRoute env e nicID addr netProto).2 =
      [Event.findRoute nicID la addr.addr] := by
  unfold connectRoute
  dsimp only
  repeat' split
  all_goals first
    | exact ⟨_, rfl⟩
    | simp_all

/-- C4: Connect/ConnectAndThen from Closed fails with
invalid-endpoint-state.  From Bound or Connected with a NIC pinning, a
given destination NIC differing from the pinning fails with
invalid-endpoint-state, and the pinned NIC is the one handed to route
resolution regardless of the given NIC.  Connect never establishes a NIC
pinning (bindNICID is unchanged by every Connect), so after
Connect-from-Initial a second Connect with a different NIC succeeds (when
the stack cooperates) and updates the remote identity. -/
theorem claim_C4_connect_nic_pinning (env : Env) (e : Endpoint) (addr : FullAddress)
    (f : NetProto → TransportEndpointID → TransportEndpointID → Option TcpipError) :
    (e.state = .closed →
      connectAndThen env e addr f = (e, [], some TcpipError.invalidEndpointState)) ∧
    ((e.state = .bound ∨ e.state = .connected) → e.info.bindNICID ≠ 0 →
      addr.nic ≠ 0 → addr.nic ≠ e.info.bindNICID →
      connectAndThen env e addr f = (e, [], some TcpipError.invalidEndpointState)) ∧
    ((e.state = .bound ∨ e.state = .connected) → e.info.bindNICID ≠ 0 →
      (addr.nic = 0 ∨ addr.nic = e.info.bindNICID) →
      ∀ addr' netProto,
        checkV4MappedLocked env e { addr with port := 0 } = .ok (addr', netProto) →
        ∃ la, (connectAndThen env e addr f).2.1.head? =
          some (Event.findRoute e.info.bindNICID la addr'.addr)) ∧
    ((connectAndThen env e addr f).1.info.bindNICID = e.info.bindNICID) ∧
    (e.state = .connected → e.info.bindNICID = 0 →
      ∀ addr' netProto r nicID evts,
        checkV4MappedLocked env e { addr with port := 0 } = .ok (addr', netProto) →
        connectRoute env e addr.nic addr' netProto = (.ok (r, nicID), evts) →
        f r.netProto e.info.id
          { localAddress := e.info.id.localAddress
            remoteAddress := r.remoteAddress } = none →
        (connectAndThen env e addr f).2.2 = none ∧
        (connectAndThen env e addr f).1.info.id.remoteAddress = r.remoteAddress) := by
  refine ⟨?_, ?_, ?_, ?_, ?_⟩
  · intro h
    unfold connectAndThen
    dsimp only
    simp only [h]
  · intro hst hb h1 h2
    have hb' : (e.info.bindNICID == 0) = false := by simpa using hb
    have hcond : (addr.nic != 0 && addr.nic != e.info.bindNICID) = true := by
      simp [h1, h2]
    rcases hst with h | h <;>
      (unfold connectAndThen; dsimp only; simp only [h, hb', hcond]) <;> rfl
  · intro hst hb hnic addr' netProto hchk
    have hb' : (e.info.bindNICID == 0) = false := by simpa using hb
    have hcond : (addr.nic != 0 && addr.nic != e.info.bindNICID) = false := by
      rcases hnic with h1 | h1 <;> simp [h1]
    obtain ⟨la, hevts⟩ :=
      connectRoute_findRoute_event env e e.info.bindNICID addr' netProto hb
    refine ⟨la, ?_⟩
    rcases hcr : connectRoute env e e.info.bindNICID addr' netProto with ⟨res, evts⟩
    rw [hcr] at hevts
    dsimp only at hevts
    rcases hst with h | h <;>
      (unfold connectAndThen
       dsimp only
       simp only [h, hb', hcond, Bool.false_eq_true, if_false, hchk, hcr]) <;>
      (cases res with
       | error err => simp [hevts]
       | ok rp =>
         rcases rp with ⟨r, nicID⟩
         dsimp only
         cases hf : f r.netProto e.info.id _ with
         | some err => simp [hevts]
         | none => simp [hevts])
  · unfold connectAndThen
    dsimp only
    repeat' split
    all_goals rfl
  · intro hconn hb0 addr' netProto r nicID evts hchk hcr hf
    have hb' : (e.info.bindNICID == 0) = true := by simpa using hb0
    unfold connectAndThen
    dsimp only
    simp only [hconn, hb', if_true, hchk, hcr]
    have hini : (DatagramEndpointState.connected == DatagramEndpointState.initial) = false := by
      decide
    simp only [hini, Bool.false_eq_true, if_false, hf]
    constructor <;> first
      | rfl
      | trivial

/-- The endpoint after `Close` on the connected fixture. -/
def cClosedEp : Endpoint := (close cConnected).1

/-- The endpoint after `Bind` to the locally owned address "lA" (NIC
auto-selected to 3, establishing a NIC pinning). -/
def cBound : Endpoint := (bind cenv cInit { nic := 0, addr := "lA", port := 9 }).1

/-- A second unicast destination, on NIC 6. -/
def caddr6 : FullAddress := { nic := 6, addr := "rB", port := 7 }

/-- The route `cenv.findRoute` hands out for the second Connect (NIC 6). -/
def cRoute6 : Route :=
  { rid := 106
    localAddress := "lA"
    remoteAddress := "rB"
    defaultTTL := 64
    netProto := ipv4ProtocolNumber
    maxHeaderLength := 10
    requiresTXChecksum := true
    nicID := 6
    isOutboundBroadcast := false }

theorem claim_C4_witness :
    connectAndThen cenv cClosedEp caddr cHookOk =
      (cClosedEp, [], some TcpipError.invalidEndpointState) ∧
    connectAndThen cenv cBound caddr cHookOk =
      (cBound, [], some TcpipError.invalidEndpointState) ∧
    (connectAndThen cenv cConnected caddr6 cHookOk).2.2 = none ∧
    (connectAndThen cenv cConnected caddr6 cHookOk).1.info.id.remoteAddress = "rB" := by
  have h1 := (claim_C4_connect_nic_pinning cenv cClosedEp caddr cHookOk).1 (by decide)
  have h2 := (claim_C4_connect_nic_pinning cenv cBound caddr cHookOk).2.1
    (Or.inl (by decide)) (by decide) (by decide) (by decide)
  have h5 := (claim_C4_connect_nic_pinning cenv cConnected caddr6 cHookOk).2.2.2.2
    (by decide) (by decide) { nic := 6, addr := "rB", port := 0 } ipv4ProtocolNumber
    cRoute6 6 [Event.findRoute 6 "lA" "rB"] rfl rfl rfl
  exact ⟨h1, h2, h5.1, h5.2⟩

/-- The NIC-resolution block shared by the membership options emits only
find-route / release events, never a join-group or leave-group call. -/
theorem membershipNICID_events_no_group (env : Env) (e : Endpoint) (nicID : NICID)
    (ia ma : Addr) :
    (∀ p q a, Event.joinGroup p q a ∉ (membershipNICID env e nicID ia ma).2) ∧
    (∀ p q a, Event.leaveGroup p q a ∉ (membershipNICID env e nicID ia ma).2) := by
  unfold membershipNICID
  repeat' split
  all_goals constructor <;> intro p q a <;> simp

/-- C7: Joining a multicast (NIC, group address) pair that is already in
the membership set fails with port-in-use and does not call the stack's
join-group; leaving a pair that is not in the set fails with
bad-local-address and does not call the stack's leave-group; a successful
join inserts exactly that pair, a successful leave removes exactly that
pair, and over every operation sequence the set holds at most one entry
per pair (it stays duplicate-free). -/
theorem claim_C7_membership_set (env : Env) (e : Endpoint) (nic : NICID)
    (ia ma : Addr) (n : NICID) (evs : List Event)
    (hmc : (env.isV4MulticastAddress ma || env.isV6MulticastAddress ma) = true)
    (hres : membershipNICID env e nic ia ma = (n, evs))
    (hn : n ≠ 0) :
    (e.multicastMemberships.contains ⟨n, ma⟩ = true →
      setSockOpt env e (.addMembership nic ia ma) =
        (e, evs, some TcpipError.portInUse) ∧
      ∀ p q a, Event.joinGroup p q a ∉ evs) ∧
    (e.multicastMemberships.contains ⟨n, ma⟩ = false →
      env.joinGroup e.info.netProto n ma = none →
      setSockOpt env e (.addMembership nic ia ma) =
        ({ e with multicastMemberships := ⟨n, ma⟩ :: e.multicastMemberships },
          evs ++ [Event.joinGroup e.info.netProto n ma], none)) ∧
    (e.multicastMemberships.contains ⟨n, ma⟩ = false →
      setSockOpt env e (.removeMembership nic ia ma) =
        (e, evs, some TcpipError.badLocalAddress) ∧
      ∀ p q a, Event.leaveGroup p q a ∉ evs) ∧
    (e.multicastMemberships.contains ⟨n, ma⟩ = true →
      env.leaveGroup e.info.netProto n ma = none →
      setSockOpt env e (.removeMembership nic ia ma) =
        ({ e with multicastMemberships := e.multicastMemberships.erase ⟨n, ma⟩ },
          evs ++ [Event.leaveGroup e.info.netProto n ma], none)) ∧
    (∀ ops0 np tp e0 l, initEndpoint ops0 np tp = some e0 →
      (runOps env e0 l).multicastMemberships.Nodup) := by
  have hguard : (!env.isV4MulticastAddress ma && !env.isV6MulticastAddress ma) = false := by
    cases h4 : env.isV4MulticastAddress ma <;>
      cases h6 : env.isV6MulticastAddress ma <;> simp_all
  have hn' : (n == 0) = false := by simpa using hn
  have hng := membershipNICID_events_no_group env e nic ia ma
  rw [hres] at hng
  refine ⟨?_, ?_, ?_, ?_, ?_⟩
  · intro hcont
    refine ⟨?_, hng.1⟩
    unfold setSockOpt
    try dsimp only
    rw [hguard]
    try dsimp only
    rw [hres]
    try dsimp only
    rw [hn']
    try dsimp only
    rw [hcont]
    try rfl
  · intro hcont hjoin
    unfold setSockOpt
    try dsimp only
    rw [hguard]
    try dsimp only
    rw [hres]
    try dsimp only
    rw [hn']
    try dsimp only
    rw [hcont]
    try dsimp only
    rw [hjoin]
    try rfl
  · intro hcont
    refine ⟨?_, hng.2⟩
    unfold setSockOpt
    try dsimp only
    rw [hguard]
    try dsimp only
    rw [hres]
    try dsimp only
    rw [hn']
    try dsimp only
    rw [hcont]
    try rfl
  · intro hcont hleave
    unfold setSockOpt
    try dsimp only
    rw [hguard]
    try dsimp only
    rw [hres]
    try dsimp only
    rw [hn']
    try dsimp only
    rw [hcont]
    try dsimp only
    rw [hleave]
    try rfl
  · intro ops0 np tp e0 l h0
    have hmem := memberships_init ops0 np tp e0 h0
    exact nodup_runOps env e0 l (by rw [hmem]; exact List.nodup_nil)

/-- The endpoint after a first successful join of (NIC 3, "m4"). -/
def cJoined : Endpoint :=
  (setSockOpt cenv cInit (.addMembership 0 "lA" "m4")).1

theorem claim_C7_witness :
    setSockOpt cenv cJoined (SettableSocketOption.addMembership 0 "lA" "m4") =
      (cJoined, [], some TcpipError.portInUse) ∧
    setSockOpt cenv cInit (SettableSocketOption.addMembership 0 "lA" "m4") =
      ({ cInit with multicastMemberships := [⟨3, "m4"⟩] },
        [Event.joinGroup ipv4ProtocolNumber 3 "m4"], none) ∧
    setSockOpt cenv cInit (SettableSocketOption.removeMembership 0 "lA" "m4") =
      (cInit, [], some TcpipError.badLocalAddress) := by
  have hdup := (claim_C7_membership_set cenv cJoined 0 "lA" "m4" 3 []
    (by decide) (by decide) (by decide)).1 (by decide)
  have hjoin := (claim_C7_membership_set cenv cInit 0 "lA" "m4" 3 []
    (by decide) (by decide) (by decide)).2.1 (by decide) rfl
  have hleave := (claim_C7_membership_set cenv cInit 0 "lA" "m4" 3 []
    (by decide) (by decide) (by decide)).2.2.1 (by decide)
  exact ⟨hdup.1, hjoin, hleave.1⟩

end GvisorDatagram
